import Mathlib

/-!
Shallow embedding of the Google Apps Script user-registry automation
(files `Code.gs` / `Triggers.gs` / `Notifications.gs` of the repository).

Modelling conventions:
* A spreadsheet cell is loosely typed: a string, a boolean, or a date
  (a JS `Date`, modelled by its epoch-milliseconds value).  An empty cell
  is the empty string, which is what `getValues()` yields for blanks.
* JS `NaN` arising from `new Date('')` (an Invalid Date) is modelled by
  `Option`: `none` is NaN, and the JS comparison `NaN > 7` is `false`.
* Side-effecting processors are modelled as pure functions returning the
  records they append / the messages they pass to the gateways, and the
  sweep threads the sheet state explicitly through its loop.
* Gateway calls (`GmailApp.sendEmail`, `CalendarApp`) are modelled by an
  environment recording whether each underlying transport call completes
  or throws; the gateway bodies are `Except`-valued and the surrounding
  `try/catch` maps any thrown error to a `false` return.
-/

namespace Workspace

/-- A loosely typed spreadsheet cell: string, boolean, or date
(epoch milliseconds).  An empty cell reads back as the empty string. -/
inductive Cell where
  | str (s : String)
  | booleanV (b : Bool)
  | date (t : Int)
deriving DecidableEq

/-- JS truthiness of a cell value: `''` is falsy, any non-empty string is
truthy, booleans are themselves, and a `Date` object is always truthy. -/
def cellTruthy : Cell → Bool
  | .str s => decide (s ≠ "")
  | .booleanV b => b
  | .date _ => true

/-- JS `toString()` on a cell value.  The exact rendering of a `Date` is
host-defined; the program only stringifies cells guarded by truthiness
checks on string columns, so the date branch never feeds a decision. -/
def cellToString : Cell → String
  | .str s => s
  | .booleanV b => if b then "true" else "false"
  | .date t => "Date:" ++ toString t

/-- One row of the `Usuarios` sheet: columns A..G =
Name, Email, Role, Group, Active, DateRegistered, LastAccess. -/
structure Row where
  c1 : Cell
  c2 : Cell
  c3 : Cell
  c4 : Cell
  c5 : Cell
  c6 : Cell
  c7 : Cell
deriving DecidableEq

/-- The strict-equality check `v === true || v === 'TRUE'` used by
`getUsers` on column E and by the gateways on their config flags. -/
def isTrueOrTRUE (c : Cell) : Bool :=
  decide (c = Cell.booleanV true ∨ c = Cell.str "TRUE")

/-- The user record produced by the Registry Reader `getUsers`:
raw cells except for `active`, which is normalized to a boolean. -/
structure User where
  name : Cell
  email : Cell
  role : Cell
  group : Cell
  active : Bool
  dateRegistered : Cell
  lastAccess : Cell
deriving DecidableEq

/-- One loop iteration of `getUsers`: rows whose column A is falsy are
skipped (`if (!data[i][0]) continue`), otherwise the record is built. -/
def mkUser (r : Row) : Option User :=
  if cellTruthy r.c1 then
    some { name := r.c1, email := r.c2, role := r.c3, group := r.c4,
           active := isTrueOrTRUE r.c5,
           dateRegistered := r.c6, lastAccess := r.c7 }
  else none

/-- Source function `getUsers()`: reads the whole sheet, skips the header (row index 0 of
the data array) and the rows with an empty name cell. -/
def getUsers (sheet : List Row) : List User :=
  (sheet.drop 1).filterMap mkUser

/-- Model of `new Date(v)` on a cell value, `none` meaning an Invalid Date.
A date cell stays itself; the empty string (a blank cell) gives an
Invalid Date.  Non-empty date-formatted strings are host-parsed in JS
and are outside this model; the registry's date columns hold date cells
or blanks.  `new Date(bool)` coerces via `ToNumber`. -/
def jsNewDate : Cell → Option Int
  | .date t => some t
  | .str _ => none
  | .booleanV b => some (if b then 1 else 0)

/-- Milliseconds per day, `1000 * 60 * 60 * 24`. -/
def millisPerDay : Nat := 1000 * 60 * 60 * 24

/-- Source function `getDaysSinceLastAccess(lastAccessDate)` at current time `now`:
`Math.floor(Math.abs(today - lastAccess) / 86400000)`.  When the cell
holds no date the subtraction yields NaN (modelled `none`); there is no
sentinel value in the implementation. -/
def getDaysSinceLastAccess (now : Int) (lastAccessDate : Cell) : Option Nat :=
  match jsNewDate lastAccessDate with
  | none => none
  | some t => some ((now - t).natAbs / millisPerDay)

/-- The JS comparison `dias > 7` where `dias` may be NaN: `NaN > 7` is
`false`, so a NaN day count never passes the staleness test. -/
def diasGreaterThan7 : Option Nat → Bool
  | none => false
  | some d => decide (d > 7)

/-- String interpolation of the day count: NaN prints as `"NaN"`. -/
def diasText : Option Nat → String
  | none => "NaN"
  | some d => toString d

/-- The normalized row snapshot built at the top of `handleUserEdit`:
trimmed strings for the four text columns, `active` coerced to boolean,
and the two date columns kept as value-or-null (`x || null`). -/
structure EditUser where
  name : String
  email : String
  role : String
  group : String
  active : Bool
  dateRegistered : Option Cell
  lastAccess : Option Cell
deriving DecidableEq

/-- JS `String.prototype.trim`: strip whitespace from both ends.
(Implemented over the character list so that it reduces inside the
kernel; `String.trim` of the core library is extensionally the same.) -/
def jsTrim (s : String) : String :=
  String.mk
    (((s.toList.dropWhile Char.isWhitespace).reverse.dropWhile
        Char.isWhitespace).reverse)

/-- The normalization `v ? v.toString().trim() : ''` applied to the
name/email/role/group cells. -/
def normText (c : Cell) : String :=
  if cellTruthy c then jsTrim (cellToString c) else ""

/-- The coercion `v === true || v === 'TRUE' || v === 'true'` applied
to the Active cell in `handleUserEdit` (note: exactly these two string
spellings, no other casing). -/
def editActive (c : Cell) : Bool :=
  decide (c = Cell.booleanV true ∨ c = Cell.str "TRUE" ∨ c = Cell.str "true")

/-- The defaulting `v || null`: a falsy cell (blank string, `false`) becomes null. -/
def orNull (c : Cell) : Option Cell :=
  if cellTruthy c then some c else none

/-- The `user` object built from the freshly read row `A..G`. -/
def buildEditUser (r : Row) : EditUser :=
  { name := normText r.c1
    email := normText r.c2
    role := normText r.c3
    group := normText r.c4
    active := editActive r.c5
    dateRegistered := orNull r.c6
    lastAccess := orNull r.c7 }

/-- The lifecycle event the edit handler dispatches on. -/
inductive UserEvent where
  | newUser (u : EditUser) (row : Nat)
  | inactiveUser (u : EditUser)
  | roleChange (u : EditUser)
deriving DecidableEq

/-- Source condition `const filaCompleta = user.name && user.email && user.role &&
user.group` — all four required text fields are non-empty after
normalization (Active is deliberately not required). -/
abbrev filaCompleta (r : Row) : Prop :=
  (buildEditUser r).name ≠ "" ∧ (buildEditUser r).email ≠ "" ∧
  (buildEditUser r).role ≠ "" ∧ (buildEditUser r).group ≠ ""

/-- Source condition `const esNuevo = !user.dateRegistered || user.dateRegistered === ''`
— the second disjunct is in the source even though the normalized field
can never hold an empty string. -/
abbrev esNuevo (r : Row) : Prop :=
  (buildEditUser r).dateRegistered = none ∨
  (buildEditUser r).dateRegistered = some (Cell.str "")

/-- Source function `handleUserEdit(e)` as a classifier: which processor (if any) the
edit at (`row`, `col`) with row contents `r` invokes.

Mirrors the source control flow: header row returns immediately;
detection 1 (columns A..E, all four text fields filled, no registration
date) returns early; detections 2 and 3 are separate `if`s in the source
but are mutually exclusive because they test `col === 5` and `col === 3`.
Detection 2 has no `dateRegistered` guard in the source. -/
def handleUserEdit (row col : Nat) (r : Row) : Option UserEvent :=
  if row = 1 then none
  else if (1 ≤ col ∧ col ≤ 5) ∧ filaCompleta r ∧ esNuevo r then
    some (UserEvent.newUser (buildEditUser r) row)
  else if col = 5 ∧ (buildEditUser r).active = false then
    some (UserEvent.inactiveUser (buildEditUser r))
  else if col = 3 ∧ (buildEditUser r).dateRegistered ≠ none then
    some (UserEvent.roleChange (buildEditUser r))
  else
    none

/-- A row appended to the `RegistroDeEventos` audit sheet by `logEvent`
(the write-time timestamp column is not part of the decision logic). -/
structure AuditEvent where
  eventType : String
  user : Cell
  details : String
  status : String
  action : String
deriving DecidableEq

/-- A plain-text message passed to `sendNotification` (the body's
locale-formatted timestamp is not modelled). -/
structure PlainMsg where
  subject : String
  body : String
deriving DecidableEq

/-- Source function `processInactiveUser(user)`: the audit record it logs and the
plain-text alert it passes to the notification gateway. -/
def processInactiveUser (u : EditUser) : AuditEvent × PlainMsg :=
  ({ eventType := "USUARIO_INACTIVO", user := Cell.str u.name,
     details := "Usuario desactivado", status := "ALERTA",
     action := "Email enviado" },
   { subject := "Usuario inactivo detectado",
     body := "El usuario " ++ u.name ++ " (" ++ u.email ++ ") del grupo "
       ++ u.group ++ " fue marcado como inactivo." })

/-- Source function `notifyRoleChange(user)`: always logs an audit record whose status
and action depend on whether the new role is exactly `'Admin'`; sends
the plain-text alert only in the Admin case. -/
def notifyRoleChange (u : EditUser) : AuditEvent × Option PlainMsg :=
  ({ eventType := "ROL_MODIFICADO", user := Cell.str u.name,
     details := "Nuevo rol: " ++ u.role,
     status := if u.role = "Admin" then "WARNING" else "OK",
     action := if u.role = "Admin" then "Email enviado" else "Solo registro" },
   if u.role = "Admin" then
     some { subject := "Cambio Crítico: Nuevo Administrador",
            body := "ATENCIÓN: " ++ u.name ++ " fue promovido a Admin." }
   else none)

/-- The key/value pairs of the `Configuración` sheet consumed by the
gateways.  A key missing from the sheet behaves like a value that is
neither `true` nor `'TRUE'`, which `Cell.str ""` also does. -/
structure Config where
  notificarAdmins : Cell
  emailNotificacion : Cell
  crearEventoCalendar : Cell
  calendarioId : Cell
deriving DecidableEq

/-- The external world a gateway call runs against: whether `getConfig`
finds its sheet (it throws otherwise), whether the mail transport call
completes or throws, whether the configured calendar id resolves to a
calendar (vs `null`), and whether the calendar insert completes. -/
structure GatewayEnv where
  config : Option Config
  mailSendOk : Bool
  calendarFound : Bool
  createEventOk : Bool
deriving DecidableEq

/-- Character class `[^\s@]` of the regex: a character admitted by the e-mail validation regex. -/
def okEmailChar (c : Char) : Bool :=
  !c.isWhitespace && !(c = '@')

/-- Split a character list at its first `'@'`, if any. -/
def splitAtArroba : List Char → Option (List Char × List Char)
  | [] => none
  | c :: cs =>
    if c = '@' then some ([], cs)
    else
      match splitAtArroba cs with
      | some (a, b) => some (c :: a, b)
      | none => none

/-- Is there a `'.'` in the list that is not its last element? -/
def hasDotNotLast : List Char → Bool
  | [] => false
  | [_] => false
  | c :: rest => decide (c = '.') || hasDotNotLast rest

/-- Is there a `'.'` that is neither the first nor the last element? -/
def hasInnerDot (l : List Char) : Bool :=
  match l with
  | [] => false
  | _ :: t => hasDotNotLast t

/-- The anchored regex `/^[^\s@]+@[^\s@]+\.[^\s@]+$/`: one `'@'` splits
the string into a non-empty local part and a remainder, both free of
whitespace and further `'@'`, and the remainder contains a dot with at
least one character on each side (the dot itself is an admitted
character, so extra dots may appear on either side). -/
def emailShape (s : String) : Bool :=
  match splitAtArroba s.toList with
  | none => false
  | some (a, rest) =>
    !a.isEmpty && a.all okEmailChar && !rest.isEmpty && rest.all okEmailChar
      && hasInnerDot rest

/-- The body of `sendNotification(subject, body)` before its `try/catch`:
`Except.error` marks a thrown JS error (missing config sheet, or the
mail transport throwing). -/
def sendNotificationBody (env : GatewayEnv) : Except String Bool :=
  match env.config with
  | none => Except.error "Hoja Configuración no encontrada"
  | some config =>
    if ¬ (isTrueOrTRUE config.notificarAdmins = true) then Except.ok false
    else if ¬ (emailShape (cellToString config.emailNotificacion) = true) then
      Except.ok false
    else if env.mailSendOk then Except.ok true
    else Except.error "mail transport threw"

/-- Source function `sendNotification`: the whole body runs inside a
try/catch,
so every thrown error is converted to a `false` return. -/
def sendNotification (env : GatewayEnv) : Bool :=
  match sendNotificationBody env with
  | Except.ok b => b
  | Except.error _ => false

/-- The body of `sendHtmlNotification(subject, htmlBody)` before its
`try/catch`: same enable-flag check as the plain sender but no e-mail
validation. -/
def sendHtmlNotificationBody (env : GatewayEnv) : Except String Bool :=
  match env.config with
  | none => Except.error "Hoja Configuración no encontrada"
  | some config =>
    if ¬ (isTrueOrTRUE config.notificarAdmins = true) then Except.ok false
    else if env.mailSendOk then Except.ok true
    else Except.error "mail transport threw"

/-- Source function `sendHtmlNotification` with its try/catch applied. -/
def sendHtmlNotification (env : GatewayEnv) : Bool :=
  match sendHtmlNotificationBody env with
  | Except.ok b => b
  | Except.error _ => false

/-- The body of `createCalendarEvent(title, description, start, end)`
before its `try/catch`: enable flag, then calendar lookup (`null` gives
a plain `false` return, not a throw), then the insert call. -/
def createCalendarEventBody (env : GatewayEnv) : Except String Bool :=
  match env.config with
  | none => Except.error "Hoja Configuración no encontrada"
  | some config =>
    if ¬ (isTrueOrTRUE config.crearEventoCalendar = true) then Except.ok false
    else if ¬ env.calendarFound then Except.ok false
    else if env.createEventOk then Except.ok true
    else Except.error "createEvent threw"

/-- Source function `createCalendarEvent` with its try/catch applied. -/
def createCalendarEvent (env : GatewayEnv) : Bool :=
  match createCalendarEventBody env with
  | Except.ok b => b
  | Except.error _ => false

/-- One observable side effect of a processor, in execution order:
a registry cell write, an audit append, a gateway send (with the boolean
the gateway returned), or a calendar booking request (`dayOffset` days
ahead, `startHour:00` to `endHour:00`). -/
inductive Action where
  | setCell (row col : Nat) (value : Cell)
  | audit (e : AuditEvent)
  | notifyHtml (subject : String) (ok : Bool)
  | schedule (title : String) (dayOffset startHour endHour : Nat) (ok : Bool)
deriving DecidableEq

/-- Source function `processNewUser(user, row)` as its straight-line action trace:
stamp column F, stamp column G (two separate writes), append the audit
record, send the HTML welcome, book the onboarding meeting for the next
day 10:00-11:00.  The gateway results come from the environment; nothing
inspects them, so no later step is skipped and nothing is rolled back. -/
def processNewUser (env : GatewayEnv) (now : Int) (u : EditUser) (row : Nat) :
    List Action :=
  [ Action.setCell row 6 (Cell.date now),
    Action.setCell row 7 (Cell.date now),
    Action.audit { eventType := "USUARIO_AGREGADO", user := Cell.str u.name,
                   details := "Rol: " ++ u.role ++ ", Grupo: " ++ u.group,
                   status := "OK", action := "Email y evento creados" },
    Action.notifyHtml "Nuevo usuario agregado" (sendHtmlNotification env),
    Action.schedule ("Onboarding: " ++ u.name) 1 10 11
      (createCalendarEvent env) ]

/-- One entry pushed onto the `usuariosInactivos` report batch:
`{name, group, days}` with the raw name/group cells and the computed
day count (`none` = NaN). -/
structure Offender where
  name : Cell
  group : Cell
  days : Option Nat
deriving DecidableEq

/-- The state threaded through the sweep's `forEach` loop: the current
contents of the `Usuarios` sheet (each flagged user triggers a fresh
read plus one cell write) and the audit rows and batch entries appended
so far. -/
structure SweepState where
  sheet : List Row
  audits : List AuditEvent
  offenders : List Offender
deriving DecidableEq

/-- The in-loop search over the data rows: the first row whose column A
`===` the user's name cell gets its column E set to the string
`'FALSE'`; later rows with the same name are untouched; no match means
no write. -/
def setActiveFalse (nm : Cell) : List Row → List Row
  | [] => []
  | r :: rs =>
    if r.c1 = nm then { r with c5 := Cell.str "FALSE" } :: rs
    else r :: setActiveFalse nm rs

/-- The registry write for one flagged user: the loop starts at data
index 1, so the header row is never matched. -/
def deactivateByName (sheet : List Row) (nm : Cell) : List Row :=
  match sheet with
  | [] => []
  | header :: rows => header :: setActiveFalse nm rows

/-- The audit record `verificarUsuariosInactivos` logs for one flagged
user (note the action text differs from `processInactiveUser`'s). -/
def sweepAudit (u : User) (dias : Option Nat) : AuditEvent :=
  { eventType := "USUARIO_INACTIVO", user := u.name,
    details := diasText dias ++ " días sin actividad",
    status := "ALERTA", action := "Desactivado automáticamente" }

/-- One iteration of the sweep's `forEach`: skip already-inactive users;
compute the day count (`const dias`, written out at each use here since
the computation is pure); past 7 days, write `'FALSE'` to the row found
by name, log the audit record, and push the batch entry.  The loop body
contains no per-user notification call. -/
def sweepStep (now : Int) (st : SweepState) (user : User) : SweepState :=
  if user.active = false then st
  else if diasGreaterThan7 (getDaysSinceLastAccess now user.lastAccess) then
    { sheet := deactivateByName st.sheet user.name,
      audits := st.audits ++
        [sweepAudit user (getDaysSinceLastAccess now user.lastAccess)],
      offenders := st.offenders ++
        [{ name := user.name, group := user.group,
           days := getDaysSinceLastAccess now user.lastAccess }] }
  else st

/-- What one sweep run produced: the final sheet, the audit rows, the
offender batch, the argument lists of the `enviarReporteInactivos`
digest calls made (zero or one), and the per-user plain-text alerts
sent from inside the loop — the loop body calls no notification
gateway, so this list is built empty. -/
structure SweepResult where
  sheet : List Row
  audits : List AuditEvent
  offenders : List Offender
  digests : List (List Offender)
  plainAlerts : List PlainMsg
deriving DecidableEq

/-- Source function `verificarUsuariosInactivos()` at current time `now` over the given
`Usuarios` sheet: read all users once, run the loop, and send the digest
only when the batch is non-empty. -/
def verificarUsuariosInactivos (now : Int) (sheet : List Row) : SweepResult :=
  let users := getUsers sheet
  let st := users.foldl (sweepStep now)
    { sheet := sheet, audits := [], offenders := [] }
  { sheet := st.sheet, audits := st.audits, offenders := st.offenders,
    digests := if st.offenders.length > 0 then [st.offenders] else [],
    plainAlerts := [] }

/-! ### Helper lemmas -/

/-- The normalized `dateRegistered` field is `v || null`, so it can
never hold the empty string: a blank cell is falsy and becomes `none`. -/
theorem orNull_ne_some_empty (c : Cell) : orNull c ≠ some (Cell.str "") := by
  unfold orNull
  split
  · rename_i h
    intro hEq
    rw [Option.some_inj] at hEq
    subst hEq
    simp [cellTruthy] at h
  · simp

/-- The source's `esNuevo` test is equivalent to plain absence of the
registration date. -/
theorem esNuevo_iff_none (r : Row) :
    esNuevo r ↔ (buildEditUser r).dateRegistered = none := by
  constructor
  · rintro (h | h)
    · exact h
    · exact absurd h (orNull_ne_some_empty r.c6)
  · exact Or.inl

/-! ### C1 — completion trigger fires exactly on complete, unstamped rows -/

/-- A complete row without a registration date; Active is `false`, which
must not block NewUser detection, and the name needs trimming. -/
def c1RowNew : Row :=
  ⟨Cell.str " Carlos ", Cell.str "carlos@empresa.com", Cell.str "Editor",
   Cell.str "IT", Cell.booleanV false, Cell.str "", Cell.str ""⟩

/-- The same user after the NewUser processor stamped both dates. -/
def c1RowStamped : Row :=
  ⟨Cell.str "Carlos", Cell.str "carlos@empresa.com", Cell.str "Editor",
   Cell.str "IT", Cell.booleanV true, Cell.date 1700000000000,
   Cell.date 1700000000000⟩

/-- C1: for every edit to a non-header row (`1 < row`) in one of the five
basic columns, the classifier yields a NewUser event iff name, email,
role and group are all non-empty after trimming and `dateRegistered` is
absent; in particular once `dateRegistered` is stamped, no edit of the
row ever yields NewUser again. -/
theorem c1_basic_column_newUser_iff (row col : Nat) (r : Row)
    (hrow : 1 < row) (hlo : 1 ≤ col) (hhi : col ≤ 5) :
    ((∃ u i, handleUserEdit row col r = some (UserEvent.newUser u i)) ↔
      (filaCompleta r ∧ (buildEditUser r).dateRegistered = none)) ∧
    ((buildEditUser r).dateRegistered ≠ none →
      ∀ u i, handleUserEdit row col r ≠ some (UserEvent.newUser u i)) := by
  have hne : ¬ row = 1 := by omega
  constructor
  · constructor
    · rintro ⟨u, i, hEq⟩
      unfold handleUserEdit at hEq
      rw [if_neg hne] at hEq
      by_cases hC : (1 ≤ col ∧ col ≤ 5) ∧ filaCompleta r ∧ esNuevo r
      · exact ⟨hC.2.1, (esNuevo_iff_none r).mp hC.2.2⟩
      · rw [if_neg hC] at hEq
        split at hEq <;> (try split at hEq) <;> simp at hEq
    · rintro ⟨hcomp, hnone⟩
      refine ⟨buildEditUser r, row, ?_⟩
      unfold handleUserEdit
      rw [if_neg hne, if_pos ⟨⟨hlo, hhi⟩, hcomp, Or.inl hnone⟩]
  · intro hReg u i hEq
    unfold handleUserEdit at hEq
    rw [if_neg hne] at hEq
    by_cases hC : (1 ≤ col ∧ col ≤ 5) ∧ filaCompleta r ∧ esNuevo r
    · exact hReg ((esNuevo_iff_none r).mp hC.2.2)
    · rw [if_neg hC] at hEq
      split at hEq <;> (try split at hEq) <;> simp at hEq

/-- C1 witness: a concrete complete unstamped row classifies as NewUser
whichever basic column was edited last (here column D), and a concrete
stamped row never does. -/
theorem c1_basic_column_newUser_iff_witness :
    (∃ u i, handleUserEdit 2 4 c1RowNew = some (UserEvent.newUser u i)) ∧
    (∀ u i, handleUserEdit 3 2 c1RowStamped ≠ some (UserEvent.newUser u i)) := by
  constructor
  · exact (c1_basic_column_newUser_iff 2 4 c1RowNew (by omega) (by omega)
      (by omega)).1.mpr (by decide)
  · exact (c1_basic_column_newUser_iff 3 2 c1RowStamped (by omega) (by omega)
      (by omega)).2 (by decide)

/-! ### C3 — the Deactivation rule has no `dateRegistered` guard -/

/-- An incomplete row (blank email), no registration date, Active edited
to `false`. -/
def c3Row : Row :=
  ⟨Cell.str "Ana", Cell.str "", Cell.str "Editor", Cell.str "IT",
   Cell.booleanV false, Cell.str "", Cell.str ""⟩

/-- A registered row whose Active cell reads `'FALSE'`. -/
def c3RowStamped : Row :=
  ⟨Cell.str "Ana", Cell.str "ana@empresa.com", Cell.str "Editor",
   Cell.str "IT", Cell.str "FALSE", Cell.date 5, Cell.date 5⟩

/-- A registered row whose Active cell reads boolean `true`. -/
def c3RowStampedActive : Row :=
  ⟨Cell.str "Ana", Cell.str "ana@empresa.com", Cell.str "Editor",
   Cell.str "IT", Cell.booleanV true, Cell.date 5, Cell.date 5⟩

/-- C3 counterexample: on a row with `dateRegistered` absent that does
not qualify as NewUser (its email is blank), an edit to the Active
column with normalized value `false` still yields a Deactivation event —
the source checks only `col === 5 && user.active === false`, with no
`dateRegistered` guard — contradicting the claim that such an edit
yields no event. -/
theorem c3_counterexample :
    (buildEditUser c3Row).dateRegistered = none ∧
    (buildEditUser c3Row).active = false ∧
    ¬ (filaCompleta c3Row ∧ esNuevo c3Row) ∧
    handleUserEdit 2 5 c3Row = some (UserEvent.inactiveUser (buildEditUser c3Row)) := by
  decide

/-- C3 amended: an edit to the Active column with normalized new value
`false` yields a Deactivation event whenever the row does not qualify as
NewUser, regardless of `dateRegistered`; in particular with
`dateRegistered` present it yields exactly one Deactivation event, and
the same edit with new value `true` yields no event. -/
theorem c3_amended_active_column (row : Nat) (r : Row) (hrow : 1 < row) :
    ((buildEditUser r).active = false → ¬ (filaCompleta r ∧ esNuevo r) →
      handleUserEdit row 5 r = some (UserEvent.inactiveUser (buildEditUser r))) ∧
    ((buildEditUser r).dateRegistered ≠ none →
      ((buildEditUser r).active = false →
        handleUserEdit row 5 r = some (UserEvent.inactiveUser (buildEditUser r))) ∧
      ((buildEditUser r).active = true → handleUserEdit row 5 r = none)) := by
  have hne : ¬ row = 1 := by omega
  constructor
  · intro hact hnotnew
    unfold handleUserEdit
    rw [if_neg hne, if_neg (fun h => hnotnew h.2), if_pos ⟨rfl, hact⟩]
  · intro hReg
    have hnotnew : ¬ ((1 ≤ 5 ∧ 5 ≤ 5) ∧ filaCompleta r ∧ esNuevo r) := by
      intro h
      exact hReg ((esNuevo_iff_none r).mp h.2.2)
    refine ⟨?_, ?_⟩
    · intro hact
      unfold handleUserEdit
      rw [if_neg hne, if_neg hnotnew, if_pos ⟨rfl, hact⟩]
    · intro hact
      unfold handleUserEdit
      rw [if_neg hne, if_neg hnotnew, if_neg (by simp [hact]), if_neg (by simp)]

/-- C3 amended witness: the three branches at concrete rows. -/
theorem c3_amended_active_column_witness :
    handleUserEdit 2 5 c3Row = some (UserEvent.inactiveUser (buildEditUser c3Row)) ∧
    handleUserEdit 2 5 c3RowStamped =
      some (UserEvent.inactiveUser (buildEditUser c3RowStamped)) ∧
    handleUserEdit 2 5 c3RowStampedActive = none := by
  refine ⟨?_, ?_, ?_⟩
  · exact (c3_amended_active_column 2 c3Row (by omega)).1 (by decide) (by decide)
  · exact ((c3_amended_active_column 2 c3RowStamped (by omega)).2
      (by decide)).1 (by decide)
  · exact ((c3_amended_active_column 2 c3RowStampedActive (by omega)).2
      (by decide)).2 (by decide)

/-! ### C9 — Active coercion accepts only two string spellings -/

/-- A row whose Active cell holds the mixed-case string `'True'`. -/
def c9Row : Row :=
  ⟨Cell.str "Ana", Cell.str "ana@empresa.com", Cell.str "Editor",
   Cell.str "IT", Cell.str "True", Cell.str "", Cell.str ""⟩

/-- A row whose Active cell holds the lower-case string `'true'` and
whose name cell needs trimming. -/
def c9RowLower : Row :=
  ⟨Cell.str "  Ana  ", Cell.str "ana@empresa.com", Cell.str "Editor",
   Cell.str "IT", Cell.str "true", Cell.str "", Cell.str ""⟩

/-- C9 counterexample: the snapshot normalization compares `active`
against exactly `true`, `'TRUE'` and `'true'`, so the mixed-case literal
`'True'` — which a case-insensitive comparison would accept — normalizes
to `false`, contradicting the claim. -/
theorem c9_counterexample :
    c9Row.c5 = Cell.str "True" ∧ (buildEditUser c9Row).active = false := by
  decide

/-- C9 amended: the row-snapshot normalization coerces `active` to true
exactly from boolean `true` or the literal strings `'TRUE'` and `'true'`
(other casings such as `'True'` give false); truthy string fields are
trimmed, falsy ones become empty; falsy date cells are treated as
absent, truthy ones kept. -/
theorem c9_amended_normalization (r : Row) :
    ((buildEditUser r).active = true ↔
      (r.c5 = Cell.booleanV true ∨ r.c5 = Cell.str "TRUE" ∨
       r.c5 = Cell.str "true")) ∧
    (cellTruthy r.c1 = true → (buildEditUser r).name = jsTrim (cellToString r.c1)) ∧
    (cellTruthy r.c1 = false → (buildEditUser r).name = "") ∧
    (cellTruthy r.c6 = false → (buildEditUser r).dateRegistered = none) ∧
    (cellTruthy r.c6 = true → (buildEditUser r).dateRegistered = some r.c6) := by
  refine ⟨?_, ?_, ?_, ?_, ?_⟩
  · simp [buildEditUser, editActive]
  · intro h
    simp [buildEditUser, normText, h]
  · intro h
    simp [buildEditUser, normText, h]
  · intro h
    simp [buildEditUser, orNull, h]
  · intro h
    simp [buildEditUser, orNull, h]

/-- C9 amended witness: the lower-case literal is accepted, the name is
trimmed, and the blank date cell of the counterexample row is absent. -/
theorem c9_amended_normalization_witness :
    (buildEditUser c9RowLower).active = true ∧
    (buildEditUser c9RowLower).name = jsTrim (cellToString c9RowLower.c1) ∧
    (buildEditUser c9Row).dateRegistered = none := by
  refine ⟨?_, ?_, ?_⟩
  · exact (c9_amended_normalization c9RowLower).1.mpr (by decide)
  · exact (c9_amended_normalization c9RowLower).2.1 (by decide)
  · exact (c9_amended_normalization c9Row).2.2.2.1 (by decide)

/-! ### C6 — role edits on registered rows; Admin gets the warning path -/

/-- A registered row whose Role cell was just edited to `Admin`. -/
def c6RowAdmin : Row :=
  ⟨Cell.str "Ana", Cell.str "ana@empresa.com", Cell.str "Admin",
   Cell.str "IT", Cell.booleanV true, Cell.date 5, Cell.date 5⟩

/-- C6: an edit to the Role column (3) on a non-header row with
`dateRegistered` present always yields a RoleChange event; the processor
logs status `'WARNING'` iff the new role equals `'Admin'` (else `'OK'`),
and passes an alert to the notification gateway iff the new role equals
`'Admin'`. -/
theorem c6_roleChange (row : Nat) (r : Row) (u : EditUser) (hrow : 1 < row) :
    ((buildEditUser r).dateRegistered ≠ none →
      handleUserEdit row 3 r = some (UserEvent.roleChange (buildEditUser r))) ∧
    ((notifyRoleChange u).1.status = "WARNING" ↔ u.role = "Admin") ∧
    (u.role ≠ "Admin" → (notifyRoleChange u).1.status = "OK") ∧
    ((notifyRoleChange u).2 ≠ none ↔ u.role = "Admin") := by
  have hne : ¬ row = 1 := by omega
  refine ⟨?_, ?_, ?_, ?_⟩
  · intro hReg
    have hnotnew : ¬ ((1 ≤ 3 ∧ 3 ≤ 5) ∧ filaCompleta r ∧ esNuevo r) :=
      fun h => hReg ((esNuevo_iff_none r).mp h.2.2)
    unfold handleUserEdit
    rw [if_neg hne, if_neg hnotnew, if_neg (by simp), if_pos ⟨rfl, hReg⟩]
  · by_cases h : u.role = "Admin" <;> simp [notifyRoleChange, h]
  · intro h
    simp [notifyRoleChange, h]
  · by_cases h : u.role = "Admin" <;> simp [notifyRoleChange, h]

/-- C6 witness: the concrete Admin row takes the warning-and-alert
path. -/
theorem c6_roleChange_witness :
    handleUserEdit 2 3 c6RowAdmin =
      some (UserEvent.roleChange (buildEditUser c6RowAdmin)) ∧
    (notifyRoleChange (buildEditUser c6RowAdmin)).1.status = "WARNING" ∧
    (notifyRoleChange (buildEditUser c6RowAdmin)).2 ≠ none := by
  obtain ⟨h1, h2, _, h4⟩ :=
    c6_roleChange 2 c6RowAdmin (buildEditUser c6RowAdmin) (by omega)
  exact ⟨h1 (by decide), h2.mpr (by decide), h4.mpr (by decide)⟩

/-! ### Sweep lemmas shared by C2, C5 and C10 -/

/-- A user that is inactive or within the threshold (including the NaN
day count) leaves the sweep state untouched. -/
theorem sweepStep_skip (now : Int) (st : SweepState) (u : User)
    (h : u.active = false ∨
      diasGreaterThan7 (getDaysSinceLastAccess now u.lastAccess) = false) :
    sweepStep now st u = st := by
  rcases h with h | h
  · simp [sweepStep, h]
  · unfold sweepStep
    split
    · rfl
    · simp [h]

/-- Folding the sweep step over a list of users that are all skipped is
the identity on the state. -/
theorem foldl_sweepStep_skip (now : Int) :
    ∀ (l : List User) (st : SweepState),
      (∀ u ∈ l, u.active = false ∨
        diasGreaterThan7 (getDaysSinceLastAccess now u.lastAccess) = false) →
      l.foldl (sweepStep now) st = st := by
  intro l
  induction l with
  | nil =>
    intro st _
    rfl
  | cons a t ih =>
    intro st h
    rw [List.foldl_cons, sweepStep_skip now st a (h a (List.mem_cons_self a t))]
    exact ih st (fun u hu => h u (List.mem_cons_of_mem a hu))

/-- The shape of every audit record the sweep logs. -/
def sweepAuditShape (a : AuditEvent) : Prop :=
  a.eventType = "USUARIO_INACTIVO" ∧ a.status = "ALERTA" ∧
  a.action = "Desactivado automáticamente"

/-- The sweep loop appends one audit row per batch entry, and every
audit row it appends has the fixed sweep shape. -/
theorem sweep_loop_invariant (now : Int) :
    ∀ (l : List User) (st : SweepState),
      (st.audits.length = st.offenders.length ∧
        ∀ a ∈ st.audits, sweepAuditShape a) →
      ((l.foldl (sweepStep now) st).audits.length =
        (l.foldl (sweepStep now) st).offenders.length ∧
       ∀ a ∈ (l.foldl (sweepStep now) st).audits, sweepAuditShape a) := by
  intro l
  induction l with
  | nil =>
    intro st h
    exact h
  | cons u t ih =>
    intro st h
    rw [List.foldl_cons]
    apply ih
    unfold sweepStep
    split
    · exact h
    · split
      · refine ⟨by simp [h.1], ?_⟩
        intro a ha
        rw [List.mem_append] at ha
        rcases ha with ha | ha
        · exact h.2 a ha
        · rw [List.mem_singleton] at ha
          subst ha
          exact ⟨rfl, rfl, rfl⟩
      · exact h

/-- The digest rule is exactly: one digest call carrying the whole
batch when the batch is non-empty, none otherwise. -/
theorem verificar_digests_eq (now : Int) (sheet : List Row) :
    (verificarUsuariosInactivos now sheet).digests =
      (if (verificarUsuariosInactivos now sheet).offenders.length > 0
       then [(verificarUsuariosInactivos now sheet).offenders] else []) := rfl

/-! ### C2 — the 3/8/15-day scenario and the all-fresh no-op -/

/-- Header row of the `Usuarios` sheet (contents irrelevant; the sweep's
row search starts below it). -/
def c2Header : Row :=
  ⟨Cell.str "Nombre", Cell.str "Email", Cell.str "Rol", Cell.str "Grupo",
   Cell.str "Activo", Cell.str "FechaRegistro", Cell.str "UltimoAcceso"⟩

/-- The sweep's "current time" used by the concrete scenarios. -/
def tC2 : Int := 1700000000000

/-- Active user, last access 3 days ago. -/
def c2RowAna : Row :=
  ⟨Cell.str "Ana", Cell.str "ana@empresa.com", Cell.str "Editor",
   Cell.str "IT", Cell.booleanV true, Cell.date 1,
   Cell.date (1700000000000 - 3 * 86400000)⟩

/-- Active user (string-typed `'TRUE'` cell), last access 8 days ago. -/
def c2RowLuis : Row :=
  ⟨Cell.str "Luis", Cell.str "luis@empresa.com", Cell.str "Viewer",
   Cell.str "IT", Cell.str "TRUE", Cell.date 1,
   Cell.date (1700000000000 - 8 * 86400000)⟩

/-- Active user, last access 15 days ago. -/
def c2RowMarta : Row :=
  ⟨Cell.str "Marta", Cell.str "marta@empresa.com", Cell.str "Editor",
   Cell.str "RH", Cell.booleanV true, Cell.date 1,
   Cell.date (1700000000000 - 15 * 86400000)⟩

/-- The 3/8/15-day registry. -/
def c2Sheet : List Row := [c2Header, c2RowAna, c2RowLuis, c2RowMarta]

/-- Batch entry the sweep builds for the 8-day user. -/
def c2OffLuis : Offender := ⟨Cell.str "Luis", Cell.str "IT", some 8⟩

/-- Batch entry the sweep builds for the 15-day user. -/
def c2OffMarta : Offender := ⟨Cell.str "Marta", Cell.str "RH", some 15⟩

/-- A registry whose only data row is the 3-day (fresh) user. -/
def c2FreshSheet : List Row := [c2Header, c2RowAna]

/-- C2: over active users 3, 8 and 15 days stale the sweep deactivates
exactly the latter two (their Active cells are written), logs exactly
two UserInactive audit rows with the correct day counts, and sends one
digest listing both; and in general, whenever every user's computed day
count is at most 7, the sweep changes nothing and sends no digest. -/
theorem c2_sweep_scenario :
    ((verificarUsuariosInactivos tC2 c2Sheet).sheet =
      [c2Header, c2RowAna, { c2RowLuis with c5 := Cell.str "FALSE" },
       { c2RowMarta with c5 := Cell.str "FALSE" }]) ∧
    ((verificarUsuariosInactivos tC2 c2Sheet).audits =
      [⟨"USUARIO_INACTIVO", Cell.str "Luis", "8 días sin actividad",
        "ALERTA", "Desactivado automáticamente"⟩,
       ⟨"USUARIO_INACTIVO", Cell.str "Marta", "15 días sin actividad",
        "ALERTA", "Desactivado automáticamente"⟩]) ∧
    ((verificarUsuariosInactivos tC2 c2Sheet).offenders =
      [c2OffLuis, c2OffMarta]) ∧
    ((verificarUsuariosInactivos tC2 c2Sheet).digests =
      [[c2OffLuis, c2OffMarta]]) ∧
    (∀ (now : Int) (sheet : List Row),
      (∀ u ∈ getUsers sheet,
        (getDaysSinceLastAccess now u.lastAccess).all
          (fun d => decide (d ≤ 7)) = true) →
      verificarUsuariosInactivos now sheet = ⟨sheet, [], [], [], []⟩) := by
  refine ⟨by decide, by decide, by decide, by decide, ?_⟩
  intro now sheet h
  have hskip : ∀ u ∈ getUsers sheet, u.active = false ∨
      diasGreaterThan7 (getDaysSinceLastAccess now u.lastAccess) = false := by
    intro u hu
    right
    cases hd : getDaysSinceLastAccess now u.lastAccess with
    | none => simp [diasGreaterThan7]
    | some d =>
      have hle := h u hu
      rw [hd] at hle
      simp [Option.all] at hle
      simp [diasGreaterThan7]
      omega
  have hfold : (getUsers sheet).foldl (sweepStep now) ⟨sheet, [], []⟩ =
      ⟨sheet, [], []⟩ :=
    foldl_sweepStep_skip now (getUsers sheet) _ hskip
  simp [verificarUsuariosInactivos, hfold]

/-- C2 witness for the all-fresh clause: the 3-day-only registry is left
untouched and no digest is sent. -/
theorem c2_sweep_scenario_witness :
    verificarUsuariosInactivos tC2 c2FreshSheet =
      ⟨c2FreshSheet, [], [], [], []⟩ :=
  c2_sweep_scenario.2.2.2.2 tC2 c2FreshSheet (by decide)

/-! ### C4 — absent lastAccess: NaN day count, user never deactivated -/

/-- An active registered user whose LastAccess cell is blank. -/
def c4Row : Row :=
  ⟨Cell.str "Pedro", Cell.str "pedro@empresa.com", Cell.str "Editor",
   Cell.str "IT", Cell.booleanV true, Cell.date 1, Cell.str ""⟩

/-- Registry holding only the blank-lastAccess user. -/
def c4Sheet : List Row := [c2Header, c4Row]

/-- C4 (code bug): with `lastAccess` absent, `new Date('')` is an
Invalid Date, the day count is NaN, the staleness comparison
`NaN > 7` is false, and the sweep therefore never deactivates the user —
there is no 999 sentinel in `getDaysSinceLastAccess`, contrary to the
claim and to the source's own documentation of the sweep. -/
theorem c4_absent_lastAccess_never_deactivated :
    getDaysSinceLastAccess tC2 (Cell.str "") = none ∧
    diasGreaterThan7 (getDaysSinceLastAccess tC2 (Cell.str "")) = false ∧
    getUsers c4Sheet =
      [⟨Cell.str "Pedro", Cell.str "pedro@empresa.com", Cell.str "Editor",
        Cell.str "IT", true, Cell.date 1, Cell.str ""⟩] ∧
    verificarUsuariosInactivos tC2 c4Sheet = ⟨c4Sheet, [], [], [], []⟩ := by
  decide

/-! ### C5 — the sweep does not invoke the Deactivation processor -/

/-- Active user, last access 20 days ago. -/
def c5Row : Row :=
  ⟨Cell.str "Luis", Cell.str "luis@empresa.com", Cell.str "Viewer",
   Cell.str "IT", Cell.booleanV true, Cell.date 1,
   Cell.date (1700000000000 - 20 * 86400000)⟩

/-- Registry holding only the 20-day-stale user. -/
def c5Sheet : List Row := [c2Header, c5Row]

/-- C5 counterexample: the sweep deactivates the stale user and logs an
audit row, but it sends no per-user plain-text alert and its audit row
carries the action `'Desactivado automáticamente'` — not the
`'Email enviado'` the Deactivation processor `processInactiveUser` would
have written — so the sweep does not invoke the Deactivation processor
as the claim states. -/
theorem c5_counterexample :
    (verificarUsuariosInactivos tC2 c5Sheet).offenders =
      [⟨Cell.str "Luis", Cell.str "IT", some 20⟩] ∧
    (verificarUsuariosInactivos tC2 c5Sheet).sheet =
      [c2Header, { c5Row with c5 := Cell.str "FALSE" }] ∧
    (verificarUsuariosInactivos tC2 c5Sheet).plainAlerts = [] ∧
    (verificarUsuariosInactivos tC2 c5Sheet).audits =
      [⟨"USUARIO_INACTIVO", Cell.str "Luis", "20 días sin actividad",
        "ALERTA", "Desactivado automáticamente"⟩] ∧
    (processInactiveUser (buildEditUser c5Row)).1.action = "Email enviado" ∧
    "Desactivado automáticamente" ≠ "Email enviado" := by
  decide

/-- C5 amended: for each user it deactivates the sweep logs exactly one
UserInactive audit row (status Alert, action describing the automatic
deactivation) and appends the user to the digest batch, but it does not
invoke the Deactivation processor: no per-user plain-text alert is sent,
and the only notification is the single digest sent when the batch is
non-empty. -/
theorem c5_amended_sweep (now : Int) (sheet : List Row) :
    (verificarUsuariosInactivos now sheet).plainAlerts = [] ∧
    (verificarUsuariosInactivos now sheet).audits.length =
      (verificarUsuariosInactivos now sheet).offenders.length ∧
    (∀ a ∈ (verificarUsuariosInactivos now sheet).audits, sweepAuditShape a) ∧
    ((verificarUsuariosInactivos now sheet).offenders = [] →
      (verificarUsuariosInactivos now sheet).digests = []) ∧
    ((verificarUsuariosInactivos now sheet).offenders ≠ [] →
      (verificarUsuariosInactivos now sheet).digests =
        [(verificarUsuariosInactivos now sheet).offenders]) := by
  have h := sweep_loop_invariant now (getUsers sheet) ⟨sheet, [], []⟩
    ⟨rfl, by simp⟩
  refine ⟨rfl, h.1, h.2, ?_, ?_⟩
  · intro h0
    rw [verificar_digests_eq, h0]
    simp
  · intro h0
    rw [verificar_digests_eq, if_pos]
    simpa using List.length_pos.mpr h0

/-- C5 amended witness: the concrete stale-user registry instantiates
every clause. -/
theorem c5_amended_sweep_witness :
    (verificarUsuariosInactivos tC2 c5Sheet).plainAlerts = [] ∧
    sweepAuditShape
      ⟨"USUARIO_INACTIVO", Cell.str "Luis", "20 días sin actividad",
       "ALERTA", "Desactivado automáticamente"⟩ ∧
    (verificarUsuariosInactivos tC2 c5Sheet).digests =
      [(verificarUsuariosInactivos tC2 c5Sheet).offenders] := by
  obtain ⟨h1, _, h3, _, h5⟩ := c5_amended_sweep tC2 c5Sheet
  exact ⟨h1, h3 _ (by decide), h5 (by decide)⟩

/-! ### C7 — NewUser processor order and gateway-failure independence -/

/-- A normalized new-user record for the processor claims. -/
def c7User : EditUser :=
  ⟨"Carlos", "carlos@empresa.com", "Editor", "IT", false, none, none⟩

/-- An environment whose mail transport throws but whose flags are on
and whose calendar resolves. -/
def c7EnvThrow : GatewayEnv :=
  ⟨some ⟨Cell.str "TRUE", Cell.str "admin@empresa.com", Cell.str "TRUE",
    Cell.str "primary"⟩, false, true, true⟩

/-- C7: the NewUser processor performs, in this fixed order: stamp
`dateRegistered` (column 6), stamp `lastAccess` (column 7) as a second
separate write, append the UserAdded audit record, send the welcome
notification, book the onboarding meeting for the next day 10:00-11:00;
and whatever the notification gateway returns — including `false` when
its transport throws — the scheduling call still executes and the
earlier stamps and audit write remain in the trace. -/
theorem c7_processNewUser_order (env : GatewayEnv) (now : Int)
    (u : EditUser) (row : Nat) :
    (processNewUser env now u row).length = 5 ∧
    (processNewUser env now u row).get? 0 =
      some (Action.setCell row 6 (Cell.date now)) ∧
    (processNewUser env now u row).get? 1 =
      some (Action.setCell row 7 (Cell.date now)) ∧
    (processNewUser env now u row).get? 2 =
      some (Action.audit
        ⟨"USUARIO_AGREGADO", Cell.str u.name,
         "Rol: " ++ u.role ++ ", Grupo: " ++ u.group, "OK",
         "Email y evento creados"⟩) ∧
    (processNewUser env now u row).get? 3 =
      some (Action.notifyHtml "Nuevo usuario agregado"
        (sendHtmlNotification env)) ∧
    (processNewUser env now u row).get? 4 =
      some (Action.schedule ("Onboarding: " ++ u.name) 1 10 11
        (createCalendarEvent env)) ∧
    (sendHtmlNotification env = false →
      (processNewUser env now u row).get? 4 =
        some (Action.schedule ("Onboarding: " ++ u.name) 1 10 11
          (createCalendarEvent env)) ∧
      (processNewUser env now u row).get? 0 =
        some (Action.setCell row 6 (Cell.date now)) ∧
      (processNewUser env now u row).get? 2 ≠ none) := by
  refine ⟨rfl, rfl, rfl, rfl, rfl, rfl, fun _ => ⟨rfl, rfl, ?_⟩⟩
  simp [processNewUser]

/-- C7 witness: with a throwing mail transport the welcome send returns
`false`, yet the schedule action and the first stamp are still in the
trace. -/
theorem c7_processNewUser_order_witness :
    sendHtmlNotification c7EnvThrow = false ∧
    (processNewUser c7EnvThrow tC2 c7User 2).get? 4 =
      some (Action.schedule ("Onboarding: " ++ c7User.name) 1 10 11
        (createCalendarEvent c7EnvThrow)) ∧
    (processNewUser c7EnvThrow tC2 c7User 2).get? 0 =
      some (Action.setCell 2 6 (Cell.date tC2)) := by
  obtain ⟨-, -, -, -, -, -, himpl⟩ :=
    c7_processNewUser_order c7EnvThrow tC2 c7User 2
  obtain ⟨hs, hc, -⟩ := himpl (by decide)
  exact ⟨by decide, hs, hc⟩

/-! ### C10 — 'FALSE' writes round-trip to skipped users -/

/-- How a sweep run may change a row: not at all, or by setting its
Active cell to the literal string `'FALSE'` and nothing else. -/
def rowEvolved (a b : Row) : Prop :=
  b = a ∨ b = { a with c5 := Cell.str "FALSE" }

/-- Relation `rowEvolved` is reflexive. -/
theorem rowEvolved_refl (a : Row) : rowEvolved a a := Or.inl rfl

/-- Relation `rowEvolved` is transitive: re-writing `'FALSE'` changes nothing. -/
theorem rowEvolved_trans {a b c : Row}
    (h1 : rowEvolved a b) (h2 : rowEvolved b c) : rowEvolved a c := by
  rcases h1 with rfl | rfl
  · exact h2
  · rcases h2 with rfl | h2
    · exact Or.inr rfl
    · exact Or.inr h2

/-- Pointwise `rowEvolved` between a list and itself. -/
theorem forall₂_rowEvolved_refl : ∀ l : List Row, List.Forall₂ rowEvolved l l
  | [] => List.Forall₂.nil
  | a :: t => List.Forall₂.cons (rowEvolved_refl a) (forall₂_rowEvolved_refl t)

/-- Pointwise `rowEvolved` composes. -/
theorem forall₂_rowEvolved_trans :
    ∀ {l1 l2 l3 : List Row}, List.Forall₂ rowEvolved l1 l2 →
      List.Forall₂ rowEvolved l2 l3 → List.Forall₂ rowEvolved l1 l3 := by
  intro l1 l2 l3 h1
  induction h1 generalizing l3 with
  | nil =>
    intro h2
    cases h2
    exact List.Forall₂.nil
  | cons hab htail ih =>
    intro h2
    cases h2 with
    | cons hbc htail2 =>
      exact List.Forall₂.cons (rowEvolved_trans hab hbc) (ih htail2)

/-- The name search writes at most one `'FALSE'` and touches nothing
else. -/
theorem setActiveFalse_evolved (nm : Cell) :
    ∀ rows : List Row, List.Forall₂ rowEvolved rows (setActiveFalse nm rows) := by
  intro rows
  induction rows with
  | nil => exact List.Forall₂.nil
  | cons r rs ih =>
    unfold setActiveFalse
    split
    · exact List.Forall₂.cons (Or.inr rfl) (forall₂_rowEvolved_refl rs)
    · exact List.Forall₂.cons (rowEvolved_refl r) ih

/-- The per-user registry write only evolves rows. -/
theorem deactivateByName_evolved (sheet : List Row) (nm : Cell) :
    List.Forall₂ rowEvolved sheet (deactivateByName sheet nm) := by
  cases sheet with
  | nil => exact List.Forall₂.nil
  | cons h t => exact List.Forall₂.cons (rowEvolved_refl h) (setActiveFalse_evolved nm t)

/-- One sweep iteration only evolves the sheet. -/
theorem sweepStep_sheet_evolved (now : Int) (st : SweepState) (u : User) :
    List.Forall₂ rowEvolved st.sheet (sweepStep now st u).sheet := by
  unfold sweepStep
  split
  · exact forall₂_rowEvolved_refl _
  · split
    · exact deactivateByName_evolved st.sheet u.name
    · exact forall₂_rowEvolved_refl _

/-- The whole sweep loop only evolves the sheet. -/
theorem foldl_sweep_sheet_evolved (now : Int) :
    ∀ (l : List User) (st : SweepState),
      List.Forall₂ rowEvolved st.sheet ((l.foldl (sweepStep now) st).sheet) := by
  intro l
  induction l with
  | nil =>
    intro st
    exact forall₂_rowEvolved_refl _
  | cons u t ih =>
    intro st
    rw [List.foldl_cons]
    exact forall₂_rowEvolved_trans (sweepStep_sheet_evolved now st u)
      (ih (sweepStep now st u))

/-- A later "current time" for the second sweep run. -/
def tC2Later : Int := 1700000000000 + 30 * 86400000

/-- The record `getUsers` reads back from the deactivated row. -/
def c10User : User :=
  ⟨Cell.str "Luis", Cell.str "luis@empresa.com", Cell.str "Viewer",
   Cell.str "IT", false, Cell.date 1,
   Cell.date (1700000000000 - 20 * 86400000)⟩

/-- C10: a sweep run changes each registry row at most by writing the
literal string `'FALSE'` into its Active cell; the Registry Reader maps
a `'FALSE'` cell to `active = false` (only boolean `true` or `'TRUE'`
read back active); a record with `active = false` leaves the sweep state
untouched — no write, no audit, no batch entry; and concretely, running
a second sweep over the sheet the first run deactivated is a no-op. -/
theorem c10_deactivation_roundtrip :
    (∀ (now : Int) (sheet : List Row),
      List.Forall₂ rowEvolved sheet
        (verificarUsuariosInactivos now sheet).sheet) ∧
    (∀ (r : Row) (u : User), r.c5 = Cell.str "FALSE" → mkUser r = some u →
      u.active = false) ∧
    (∀ (now : Int) (st : SweepState) (u : User), u.active = false →
      sweepStep now st u = st) ∧
    (verificarUsuariosInactivos tC2Later
        (verificarUsuariosInactivos tC2 c5Sheet).sheet =
      ⟨(verificarUsuariosInactivos tC2 c5Sheet).sheet, [], [], [], []⟩) := by
  refine ⟨?_, ?_, ?_, ?_⟩
  · intro now sheet
    exact foldl_sweep_sheet_evolved now (getUsers sheet) ⟨sheet, [], []⟩
  · intro r u hF hm
    unfold mkUser at hm
    split at hm
    · rw [Option.some_inj] at hm
      subst hm
      show isTrueOrTRUE r.c5 = false
      rw [hF]
      decide
    · exact Option.noConfusion hm
  · intro now st u h
    simp [sweepStep, h]
  · decide

/-- C10 witness: the concrete one-user registry instantiates the three
general clauses. -/
theorem c10_deactivation_roundtrip_witness :
    List.Forall₂ rowEvolved c5Sheet
      (verificarUsuariosInactivos tC2 c5Sheet).sheet ∧
    c10User.active = false ∧
    sweepStep tC2Later ⟨c5Sheet, [], []⟩ c10User = ⟨c5Sheet, [], []⟩ := by
  obtain ⟨p1, p2, p3, -⟩ := c10_deactivation_roundtrip
  exact ⟨p1 tC2 c5Sheet,
    p2 { c5Row with c5 := Cell.str "FALSE" } c10User (by decide) (by decide),
    p3 tC2Later ⟨c5Sheet, [], []⟩ c10User (by decide)⟩

/-! ### C8 — gateways return booleans and never raise -/

/-- Boolean characterization of the plain sender: with the config sheet
missing it returns false, otherwise it returns the conjunction of the
enable flag, the address validation, and the transport completing. -/
theorem sendNotification_eq_and (env : GatewayEnv) :
    sendNotification env =
      (match env.config with
       | none => false
       | some c => isTrueOrTRUE c.notificarAdmins &&
           emailShape (cellToString c.emailNotificacion) && env.mailSendOk) := by
  rcases env with ⟨oc, m, cf, ce⟩
  cases oc with
  | none => rfl
  | some c =>
    by_cases h1 : isTrueOrTRUE c.notificarAdmins = true <;>
      by_cases h2 : emailShape (cellToString c.emailNotificacion) = true <;>
        cases m <;>
          simp [sendNotification, sendNotificationBody, h1, h2]

/-- Boolean characterization of the HTML sender: enable flag and the
transport completing, with no address validation. -/
theorem sendHtmlNotification_eq_and (env : GatewayEnv) :
    sendHtmlNotification env =
      (match env.config with
       | none => false
       | some c => isTrueOrTRUE c.notificarAdmins && env.mailSendOk) := by
  rcases env with ⟨oc, m, cf, ce⟩
  cases oc with
  | none => rfl
  | some c =>
    by_cases h1 : isTrueOrTRUE c.notificarAdmins = true <;>
      cases m <;>
        simp [sendHtmlNotification, sendHtmlNotificationBody, h1]

/-- Boolean characterization of the scheduler: enable flag, resolvable
calendar, and the insert call completing. -/
theorem createCalendarEvent_eq_and (env : GatewayEnv) :
    createCalendarEvent env =
      (match env.config with
       | none => false
       | some c => isTrueOrTRUE c.crearEventoCalendar &&
           env.calendarFound && env.createEventOk) := by
  rcases env with ⟨oc, m, cf, ce⟩
  cases oc with
  | none => rfl
  | some c =>
    by_cases h1 : isTrueOrTRUE c.crearEventoCalendar = true <;>
      cases cf <;> cases ce <;>
        simp [createCalendarEvent, createCalendarEventBody, h1]

/-- C8: each gateway operation is a total boolean function of its
environment — a thrown transport error is caught at the gateway body and
becomes a `false` return, a disabled flag or failed validation (bad
destination address, unresolvable calendar) gives `false`, and the
operation returns `true` exactly when every check passes and the
underlying external call completes. -/
theorem c8_gateway_boundary (env : GatewayEnv) (cfg : Config) :
    (∀ e, sendNotificationBody env = Except.error e →
      sendNotification env = false) ∧
    (∀ e, sendHtmlNotificationBody env = Except.error e →
      sendHtmlNotification env = false) ∧
    (∀ e, createCalendarEventBody env = Except.error e →
      createCalendarEvent env = false) ∧
    (env.config = some cfg →
      ((isTrueOrTRUE cfg.notificarAdmins = false →
          sendNotification env = false ∧ sendHtmlNotification env = false) ∧
       (emailShape (cellToString cfg.emailNotificacion) = false →
          sendNotification env = false) ∧
       (isTrueOrTRUE cfg.crearEventoCalendar = false →
          createCalendarEvent env = false) ∧
       (env.calendarFound = false → createCalendarEvent env = false))) ∧
    (env.mailSendOk = false →
      sendNotification env = false ∧ sendHtmlNotification env = false) ∧
    (env.createEventOk = false → createCalendarEvent env = false) ∧
    (sendNotification env = true ↔
      ∃ c, env.config = some c ∧ isTrueOrTRUE c.notificarAdmins = true ∧
        emailShape (cellToString c.emailNotificacion) = true ∧
        env.mailSendOk = true) ∧
    (sendHtmlNotification env = true ↔
      ∃ c, env.config = some c ∧ isTrueOrTRUE c.notificarAdmins = true ∧
        env.mailSendOk = true) ∧
    (createCalendarEvent env = true ↔
      ∃ c, env.config = some c ∧ isTrueOrTRUE c.crearEventoCalendar = true ∧
        env.calendarFound = true ∧ env.createEventOk = true) := by
  refine ⟨?_, ?_, ?_, ?_, ?_, ?_, ?_, ?_, ?_⟩
  · intro e he
    unfold sendNotification
    rw [he]
  · intro e he
    unfold sendHtmlNotification
    rw [he]
  · intro e he
    unfold createCalendarEvent
    rw [he]
  · intro hc
    refine ⟨?_, ?_, ?_, ?_⟩
    · intro hflag
      constructor
      · rw [sendNotification_eq_and, hc]
        simp [hflag]
      · rw [sendHtmlNotification_eq_and, hc]
        simp [hflag]
    · intro hEmail
      rw [sendNotification_eq_and, hc]
      simp [hEmail]
    · intro hflag
      rw [createCalendarEvent_eq_and, hc]
      simp [hflag]
    · intro hcal
      rw [createCalendarEvent_eq_and, hc]
      simp [hcal]
  · intro hm
    constructor
    · rw [sendNotification_eq_and]
      cases hc : env.config <;> simp [hm]
    · rw [sendHtmlNotification_eq_and]
      cases hc : env.config <;> simp [hm]
  · intro hce
    rw [createCalendarEvent_eq_and]
    cases hc : env.config <;> simp [hce]
  · rw [sendNotification_eq_and]
    cases hc : env.config with
    | none => simp
    | some c => simp [Bool.and_assoc, and_assoc]
  · rw [sendHtmlNotification_eq_and]
    cases hc : env.config with
    | none => simp
    | some c => simp
  · rw [createCalendarEvent_eq_and]
    cases hc : env.config with
    | none => simp
    | some c => simp [Bool.and_assoc, and_assoc]

/-- An environment with everything enabled and working. -/
def c8EnvOk : GatewayEnv :=
  ⟨some ⟨Cell.str "TRUE", Cell.str "admin@empresa.com", Cell.booleanV true,
    Cell.str "primary"⟩, true, true, true⟩

/-- An environment whose configured destination address is malformed. -/
def c8EnvBadEmail : GatewayEnv :=
  ⟨some ⟨Cell.str "TRUE", Cell.str "no-arroba.empresa", Cell.booleanV true,
    Cell.str "primary"⟩, true, true, true⟩

/-- C8 witness: with the config sheet missing the plain send returns
false through the catch; a malformed address refuses the plain send; and
the all-good environment returns true for all three operations. -/
theorem c8_gateway_boundary_witness :
    sendNotification ⟨none, true, true, true⟩ = false ∧
    sendNotification c8EnvBadEmail = false ∧
    sendNotification c8EnvOk = true ∧
    sendHtmlNotification c8EnvOk = true ∧
    createCalendarEvent c8EnvOk = true := by
  obtain ⟨hthrow, -, -, -, -, -, hsn, hsh, hce⟩ :=
    c8_gateway_boundary ⟨none, true, true, true⟩
      ⟨Cell.str "TRUE", Cell.str "admin@empresa.com", Cell.booleanV true,
       Cell.str "primary"⟩
  obtain ⟨-, -, -, hbad, -, -, -, -, -⟩ :=
    c8_gateway_boundary c8EnvBadEmail
      ⟨Cell.str "TRUE", Cell.str "no-arroba.empresa", Cell.booleanV true,
       Cell.str "primary"⟩
  obtain ⟨-, -, -, -, -, -, hsn2, hsh2, hce2⟩ :=
    c8_gateway_boundary c8EnvOk
      ⟨Cell.str "TRUE", Cell.str "admin@empresa.com", Cell.booleanV true,
       Cell.str "primary"⟩
  refine ⟨?_, ?_, ?_, ?_, ?_⟩
  · exact hthrow "Hoja Configuración no encontrada" rfl
  · exact (hbad (by decide)).2.1 (by decide)
  · exact hsn2.mpr ⟨_, rfl, by decide, by decide, rfl⟩
  · exact hsh2.mpr ⟨_, rfl, by decide, rfl⟩
  · exact hce2.mpr ⟨_, rfl, by decide, rfl, rfl⟩

end Workspace
